import Mathlib

/-!
Shallow embedding of the diagnostic core of `isvc.py` (class `ISVC`):
the health aggregator (`calculate_comprehensive_system_health`), the
statistics reducer (`analyze_monitoring_data`), the continuous sampler
(`continuous_monitoring_thread`), the connectivity probe
(`perform_connectivity_tests`), the battery scorer
(`calculate_battery_health_comprehensive`) and the task-collection loop of
`run_comprehensive_scan`.

Python numbers (ints and floats) are modelled as rationals, Python dicts as
association lists in insertion order with unique keys, and fallible Python
evaluation (`TypeError` / `AttributeError` on dynamically typed payloads) as
`Except String`.
-/

namespace Isvc

/-- Dynamic Python value as stored in the probe-result payloads: `None`,
booleans, numbers (int and float collapsed to `ℚ`), strings, lists and
string-keyed dicts. -/
inductive Value where
  | vnone : Value
  | vbool (b : Bool) : Value
  | num (q : ℚ) : Value
  | str (s : String) : Value
  | vlist (l : List Value) : Value
  | vdict (d : List (String × Value)) : Value

/-- A Python dict with string keys, in insertion order. -/
abbrev Dict := List (String × Value)

/-- First binding of key `k`, mirroring Python dict lookup (keys of real dicts
are unique, so first-match is exact on well-formed inputs). -/
def dlookup (d : Dict) (k : String) : Option Value :=
  (d.find? (fun p => p.1 = k)).map (fun p => p.2)

/-- Python `d.get(k, default)` on a dict payload. -/
def pyGet (d : Dict) (k : String) (dflt : Value) : Value :=
  (dlookup d k).getD dflt

/-- Python `v.get(k, default)` on a dynamic value: raises `AttributeError`
when `v` is not a dict. -/
def dictGet (v : Value) (k : String) (dflt : Value) : Except String Value :=
  match v with
  | .vdict d => .ok (pyGet d k dflt)
  | _ => .error "AttributeError"

/-- Numeric view of a value: Python treats `bool` as an `int` subtype, so
`True`/`False` act as `1`/`0` in arithmetic and comparisons. -/
def vnumq : Value → Option ℚ
  | .num q => some q
  | .vbool b => some (if b then 1 else 0)
  | _ => none

/-- Python comparison of a dynamic value with a numeric literal; `TypeError`
when the value is not a number. -/
def toNum (v : Value) : Except String ℚ :=
  match vnumq v with
  | some q => .ok q
  | none => .error "TypeError"

/-- Python truthiness of a dynamic value. -/
def truthy : Value → Bool
  | .vnone => false
  | .vbool b => b
  | .num q => q ≠ 0
  | .str s => s ≠ ""
  | .vlist l => !l.isEmpty
  | .vdict d => !d.isEmpty

/-- Python `v == s` for a string literal `s`: equality across types is
`False`, never an error. -/
def vIsStr (v : Value) (s : String) : Bool :=
  match v with
  | .str t => t = s
  | _ => false

/-- Floor of a rational, computably (`den` is always positive, so Euclidean
division of `num` by `den` is floor division). -/
def ratFloor (q : ℚ) : ℤ := q.num / q.den

/-- Python `int()` conversion of a float: truncation toward zero. -/
def pyTrunc (x : ℚ) : ℤ :=
  if 0 ≤ x then ratFloor x else -ratFloor (-x)

/-- Python `round(x, 2)`: round to two decimal places, ties to even. -/
def pyRound2 (x : ℚ) : ℚ :=
  let s := x * 100
  let f : ℤ := ratFloor s
  let r : ℤ :=
    if s - f < 1/2 then f
    else if 1/2 < s - f then f + 1
    else if f % 2 = 0 then f else f + 1
  (r : ℚ) / 100

/-- Lexicographic (code-point) comparison of character lists, as Python
compares strings. -/
def charListLt : List Char → List Char → Bool
  | _, [] => false
  | [], _ :: _ => true
  | a :: as, b :: bs => a < b || (a = b && charListLt as bs)

/-- Python `s < t` on strings. -/
def pyStrLt (s t : String) : Bool := charListLt s.toList t.toList

/-- Python `a > b` on dynamic values: numeric (including bool-as-int) and
string comparisons succeed, mixed or unordered types raise `TypeError`.
(The payloads this program compares are only numbers and strings.) -/
def pyGtV (a b : Value) : Except String Bool :=
  match vnumq a, vnumq b with
  | some x, some y => .ok (decide (y < x))
  | _, _ =>
    match a, b with
    | .str s, .str t => .ok (pyStrLt t s)
    | _, _ => .error "TypeError"

/-- Python `a < b` on dynamic values, same restrictions as `pyGtV`. -/
def pyLtV (a b : Value) : Except String Bool :=
  match vnumq a, vnumq b with
  | some x, some y => .ok (decide (x < y))
  | _, _ =>
    match a, b with
    | .str s, .str t => .ok (pyStrLt s t)
    | _, _ => .error "TypeError"

/-- Value of a digit string. -/
def digitsVal (l : List Char) : ℕ :=
  l.foldl (fun a c => a * 10 + (c.toNat - 48)) 0

/-- Python `float(s)` on a string made only of digits, `.` and `-` (the shape
produced by the program's sanitisation): `[-](D+[.D*] | .D+)`; `none` models
`ValueError`. -/
def pyFloatChars (l : List Char) : Option ℚ :=
  let p : Bool × List Char :=
    match l with
    | '-' :: rest => (true, rest)
    | _ => (false, l)
  let ip := p.2.takeWhile Char.isDigit
  let rest := p.2.dropWhile Char.isDigit
  let mag : Option ℚ :=
    match rest with
    | [] => if ip = [] then none else some (digitsVal ip)
    | '.' :: fp =>
      if fp.all Char.isDigit ∧ (ip ≠ [] ∨ fp ≠ []) then
        some ((digitsVal ip : ℚ) + (digitsVal fp : ℚ) / (10 : ℚ) ^ fp.length)
      else none
    | _ => none
  mag.map (fun m => if p.1 then -m else m)

/-- Python `int(s)` on a string made only of digits and `-`: `[-]D+`. -/
def pyIntChars (l : List Char) : Option ℤ :=
  match l with
  | '-' :: rest =>
    if rest ≠ [] ∧ rest.all Char.isDigit then some (-(digitsVal rest : ℤ)) else none
  | _ =>
    if l ≠ [] ∧ l.all Char.isDigit then some (digitsVal l : ℤ) else none

/-- `ISVC.safe_float`: strip every character other than digits, `.` and `-`,
then `float(...)` with default `0.0` on failure or emptiness. -/
def safe_float (s : String) : ℚ :=
  let cleaned := s.toList.filter (fun c => c.isDigit || c = '.' || c = '-')
  if cleaned ≠ [] ∧ cleaned.asString ≠ "Unknown" then
    (pyFloatChars cleaned).getD 0
  else 0

/-- `ISVC.safe_int`: strip every character other than digits and `-`, then
`int(...)` with default `0` on failure or emptiness. -/
def safe_int (s : String) : ℤ :=
  let cleaned := s.toList.filter (fun c => c.isDigit || c = '-')
  if cleaned ≠ [] ∧ cleaned.asString ≠ "Unknown" then
    (pyIntChars cleaned).getD 0
  else 0

/-- Thermal penalty computed at isvc.py:228-239 for a positive raw
`temperature` reading: readings above 100 are tenths of a degree. -/
def thermalPenaltyOf (temperature : ℚ) : ℚ :=
  let tc := if temperature > 100 then temperature / 10 else temperature
  if tc > 45 then min 30 ((tc - 45) * 2)
  else if tc < 0 then min 20 (|tc| * (3/2))
  else 0

/-- Celsius value stored at isvc.py:229. -/
def tempCelsiusOf (temperature : ℚ) : ℚ :=
  if temperature > 100 then temperature / 10 else temperature

/-- Capacity entries of `health_metrics` (isvc.py:208-214). -/
def batteryCapPart (current_cap design_cap : ℚ) : Dict :=
  if design_cap > 0 then
    [("capacity_degradation", .num (100 - current_cap / design_cap * 100)),
     ("capacity_ratio", .num (current_cap / design_cap * 100))]
  else
    [("capacity_degradation", .str "Unknown"),
     ("capacity_ratio", .str "Unknown")]

/-- Voltage entries of `health_metrics` (isvc.py:216-226). -/
def batteryVoltPart (voltage : ℚ) : Dict :=
  if voltage > 0 then
    [("voltage_health", .num (min 100 (voltage / 4200 * 100))),
     ("voltage_status", .str
       (if voltage < 3000 then "Critical"
        else if voltage < 3500 then "Low"
        else if voltage > 4300 then "Overcharged"
        else "Normal"))]
  else []

/-- Thermal entries of `health_metrics` (isvc.py:228-239). -/
def batteryTempPart (temperature : ℚ) : Dict :=
  if temperature > 0 then
    [("temperature_celsius", .num (tempCelsiusOf temperature)),
     ("thermal_status", .str
       (if tempCelsiusOf temperature > 45 then "Hot"
        else if tempCelsiusOf temperature < 0 then "Cold" else "Normal")),
     ("thermal_penalty", .num (thermalPenaltyOf temperature))]
  else []

/-- Cycle-count entries of `health_metrics` (isvc.py:241-251). -/
def batteryCyclePart (cycle_count : ℚ) : Dict :=
  if cycle_count > 0 then
    [("cycle_degradation", .num (min 50 (cycle_count / 1000 * 25))),
     ("estimated_remaining_cycles", .num (max 0 (1000 - cycle_count))),
     ("cycle_status", .str
       (if cycle_count > 1500 then "High"
        else if cycle_count > 800 then "Medium"
        else "Low"))]
  else []

/-- Unclamped `overall_health` weighted sum (isvc.py:253-266): the capacity
term replaces the initial 100 whenever `capacity_ratio` is numeric
(`design_cap > 0`); the voltage term defaults to `80 * 0.2`; thermal and
cycle penalties apply only when their entries exist. Python's float
literals `0.5`, `0.2`, `0.15` are modelled as the exact rationals they
denote. -/
def batteryOverallHealth (current_cap design_cap cycle_count voltage temperature : ℚ) : ℚ :=
  (if design_cap > 0 then current_cap / design_cap * 100 * (1/2) else 100)
    + (if voltage > 0 then min 100 (voltage / 4200 * 100) * (1/5) else 80 * (1/5))
    - (if temperature > 0 then thermalPenaltyOf temperature * (3/20) else 0)
    - (if cycle_count > 0 then min 50 (cycle_count / 1000 * 25) * (3/20) else 0)

/-- `ISVC.calculate_battery_health_comprehensive` (isvc.py:204-298): builds
the `health_metrics` dict in insertion order. All inputs are numbers
(produced upstream by `safe_int`/`safe_float`), so the `except` path of the
source is unreachable and the function is total. The health grade uses the
unclamped `overall_health`, the stored score the clamped one. -/
def calculate_battery_health_comprehensive
    (current_cap design_cap cycle_count voltage temperature : ℚ) : Dict :=
  let overall := batteryOverallHealth current_cap design_cap cycle_count voltage temperature
  let grade :=
    if overall ≥ 90 then "Excellent"
    else if overall ≥ 75 then "Good"
    else if overall ≥ 60 then "Fair"
    else if overall ≥ 40 then "Poor"
    else "Critical"
  let recs : List Value :=
    (if temperature > 0 ∧ tempCelsiusOf temperature > 45 then
       [Value.str "Device running hot - allow cooling"] else [])
    ++ (if voltage > 0 ∧ ¬ voltage < 3000 ∧ voltage < 3500 then
       [Value.str "Low voltage detected - charge immediately"] else [])
    ++ (if cycle_count > 1500 then
       [Value.str "High cycle count - consider battery replacement"] else [])
    ++ (if design_cap > 0 ∧ current_cap / design_cap * 100 < 70 then
       [Value.str "Significant capacity loss detected"] else [])
  batteryCapPart current_cap design_cap ++ batteryVoltPart voltage
    ++ batteryTempPart temperature ++ batteryCyclePart cycle_count
    ++ [("overall_health_score", .num (max 0 (min 100 overall))),
        ("health_grade", .str grade),
        ("recommendations", .vlist recs)]

/-- One timestamped sample appended by the continuous sampler. -/
structure Sample where
  timestamp : ℚ
  value : Value

/-- Numeric samples of a series, in order (`isinstance(value, (int, float))`,
which in Python also admits booleans as 0/1). -/
def numericValues (dps : List Sample) : List ℚ :=
  dps.filterMap (fun dp => vnumq dp.value)

/-- Minimum of a numeric sample list (callers guarantee nonemptiness). -/
def minQ : List ℚ → ℚ
  | [] => 0
  | a :: as => as.foldl min a

/-- Maximum of a numeric sample list (callers guarantee nonemptiness). -/
def maxQ : List ℚ → ℚ
  | [] => 0
  | a :: as => as.foldl max a

/-- `statistics.median`: sort ascending; middle element for odd length, mean
of the two middle elements for even length. -/
def medianQ (l : List ℚ) : ℚ :=
  let s := List.insertionSort (· ≤ ·) l
  let n := l.length
  if n % 2 = 1 then s.getD (n / 2) 0
  else (s.getD (n / 2 - 1) 0 + s.getD (n / 2) 0) / 2

/-- `statistics.variance`: sample variance with denominator `n - 1`. -/
def varianceQ (l : List ℚ) : ℚ :=
  let n := l.length
  let m := l.sum / n
  (l.map (fun x => (x - m) ^ 2)).sum / ((n : ℚ) - 1)

/-- Per-metric body of `ISVC.analyze_monitoring_data` (isvc.py:1078-1100):
`none` when the series is empty or has no numeric sample (the metric is
skipped), otherwise the stats dict in insertion order. The `trend`
comparison is Python's on the raw first/last data points and may raise
`TypeError`. -/
def metricStats (dps : List Sample) : Except String (Option Dict) :=
  match dps with
  | [] => .ok none
  | d0 :: rest =>
    let numeric := numericValues (d0 :: rest)
    match numeric with
    | [] => .ok none
    | n0 :: _ =>
      let lastv := (rest.getLastD d0).value
      do
        let gt ← pyGtV lastv d0.value
        let lt ← pyLtV lastv d0.value
        let trend := if gt then "increasing" else if lt then "decreasing" else "stable"
        .ok (some (
          [("sample_count", .num numeric.length),
           ("min_value", .num (minQ numeric)),
           ("max_value", .num (maxQ numeric)),
           ("average", .num (pyRound2 (numeric.sum / numeric.length))),
           ("median", .num (if numeric.length > 1 then pyRound2 (medianQ numeric) else n0)),
           ("range", .num (maxQ numeric - minQ numeric)),
           ("first_reading", d0.value),
           ("last_reading", lastv),
           ("trend", .str trend)]
          ++ (if numeric.length > 2 then
              [("variance", .num (pyRound2 (varianceQ numeric))),
               ("stability", .str
                 (if varianceQ numeric < maxQ numeric * (1/10) then "stable" else "variable"))]
            else [])))

/-- `ISVC.analyze_monitoring_data`: fold `metricStats` over the per-metric
series in their insertion order. -/
def analyze_monitoring_data (md : List (String × List Sample)) :
    Except String (List (String × Dict)) :=
  md.foldlM (fun acc p => do
    match ← metricStats p.2 with
    | none => pure acc
    | some st => pure (acc ++ [(p.1, st)])) []

/-- Python `str.split()` with no argument: split on whitespace runs,
discarding empty fields. -/
def pySplitWS (s : String) : List String :=
  (s.split (fun c => c.isWhitespace)).filter (fun t => t ≠ "")

/-- Registered metric commands of `continuous_monitoring_thread`
(isvc.py:1049-1057), in dict insertion order. -/
def monitoringMetrics : List String :=
  ["cpu_freq", "cpu_temp", "battery_temp", "battery_current",
   "battery_voltage", "mem_available", "load_avg"]

/-- Raw-to-stored value classification of one sampler reading
(isvc.py:1062-1069): for `mem_available`/`load_avg` take the second
whitespace field when present, otherwise the stripped output; store it as a
float when, with `.` and `-` characters removed, it is a nonempty digit
string, else as the raw string. -/
def tickValue (metric result : String) : Value :=
  let value :=
    if metric = "mem_available" ∨ metric = "load_avg" then
      if (pySplitWS result).length > 1 then (pySplitWS result).getD 1 "" else result
    else result.trim
  let cleaned := value.toList.filter (fun c => c ≠ '.' ∧ c ≠ '-')
  if cleaned ≠ [] ∧ cleaned.all Char.isDigit then .num (safe_float value)
  else .str value

/-- Sampler-owned state: the per-metric series map (a `defaultdict(list)`)
and the process-wide `data_points_collected` counter. -/
structure MonState where
  monitoring_data : List (String × List Sample)
  data_points_collected : ℕ

/-- `self.monitoring_data[metric].append(sample)` on a `defaultdict(list)`. -/
def appendSample : List (String × List Sample) → String → Sample →
    List (String × List Sample)
  | [], m, s => [(m, [s])]
  | (k, l) :: rest, m, s =>
    if k = m then (k, l ++ [s]) :: rest else (k, l) :: appendSample rest m s

/-- Total number of samples stored across all series. -/
def totalSamples (md : List (String × List Sample)) : ℕ :=
  (md.map (fun p => p.2.length)).sum

/-- One tick of `continuous_monitoring_thread` (isvc.py:1046-1073): probe
every registered metric (`res` is the adb output per metric), append a sample
exactly when the output is nonempty and not all-whitespace, then add the
number of registered commands — not the number of samples appended — to
`data_points_collected`. -/
def monitorTick (st : MonState) (ts : ℚ) (res : String → String) : MonState :=
  let md := monitoringMetrics.foldl (fun md m =>
    let r := res m
    if r ≠ "" ∧ r.trim ≠ "" then appendSample md m ⟨ts, tickValue m r⟩ else md)
    st.monitoring_data
  ⟨md, st.data_points_collected + monitoringMetrics.length⟩

/-- The sampler loop: fold `monitorTick` over the ticks that run before the
duration elapses or the cooperative stop flag is cleared. -/
def runMonitor (st : MonState) (ticks : List (ℚ × (String → String))) : MonState :=
  ticks.foldl (fun st t => monitorTick st t.1 t.2) st

/-- Hosts pinged by `perform_connectivity_tests` (isvc.py:921-925). -/
def test_hosts : List (String × String) :=
  [("Google DNS", "8.8.8.8"), ("Cloudflare DNS", "1.1.1.1"), ("Quad9 DNS", "9.9.9.9")]

/-- Dict key built at isvc.py:932: `name.lower().replace(' ', '_') + "_ping"`.
(Lower-casing and replacement are done on the character list so the result
reduces computationally.) -/
def pingKey (n : String) : String :=
  ((n.toList.map Char.toLower).map (fun c => if c = ' ' then '_' else c)).asString
    ++ "_ping"

/-- Case-insensitive "starts with" on character lists (`re.IGNORECASE`). -/
def startsWithCI : List Char → List Char → Bool
  | _, [] => true
  | [], _ :: _ => false
  | a :: as, b :: bs => a.toLower = b.toLower && startsWithCI as bs

/-- Leftmost match of `(\d+)% packet loss` (greedy digits followed by the
literal, case-insensitively): the captured digit group, if any. -/
def findPacketLoss : List Char → Option String
  | [] => none
  | c :: rest =>
    if c.isDigit then
      let run := (c :: rest).takeWhile Char.isDigit
      let after := (c :: rest).dropWhile Char.isDigit
      if startsWithCI after "% packet loss".toList then some run.asString
      else findPacketLoss rest
    else findPacketLoss rest

/-- Leftmost match of `avg = ([\d.]+)` (literal, then a nonempty greedy run
of digits and dots): the captured group, if any. -/
def findAvg : List Char → Option String
  | [] => none
  | c :: rest =>
    if startsWithCI (c :: rest) "avg = ".toList then
      let run := ((c :: rest).drop 6).takeWhile (fun ch => ch.isDigit || ch = '.')
      if run ≠ [] then some run.asString else findAvg rest
    else findAvg rest

/-- `ISVC.extract_val` (isvc.py:49-53) specialised to a concrete pattern
matcher: `"Unknown"` on empty text or no match. The captured groups here are
digit/dot runs, so the source's `.strip()` is the identity on them. -/
def extract_val (text : String) (finder : List Char → Option String) : String :=
  if text = "" then "Unknown" else (finder text.toList).getD "Unknown"

/-- Substring test (`needle in hay` for Python strings). -/
def containsSub : List Char → List Char → Bool
  | [], n => n.isEmpty
  | a :: t, n => List.isPrefixOf n (a :: t) || containsSub t n

/-- Entry added for one ping target (isvc.py:927-937): nothing when the
ping produced no output. -/
def pingEntry (ping : String → String) (nh : String × String) : Dict :=
  let pr := ping nh.2
  if pr ≠ "" then
    let pl := extract_val pr findPacketLoss
    [(pingKey nh.1, Value.vdict
      [("host", .str nh.2),
       ("packet_loss_percent", .num (safe_int pl)),
       ("avg_response_ms", .num (safe_float (extract_val pr findAvg))),
       ("status", .str (if pl = "0" then "Success" else "Failed"))])]
  else []

/-- The `dns_resolution` entry (isvc.py:939-943); note it has no `status`
key. -/
def dnsEntry (dns : String) : Dict :=
  [("google_lookup", .str
      (if containsSub dns.toList "google.com".toList then "Pass" else "Fail")),
   ("response_received", .vbool
      (dns ≠ "" ∧ (dns.splitOn "\n").length > 2))]

/-- `ISVC.perform_connectivity_tests` (isvc.py:918-945), parameterised by the
adb outputs: `ping h` is the output of `ping -c 3 -W 5 h`, `dns` the output
of the `nslookup`. A ping entry is added only when its output is nonempty;
the `dns_resolution` entry is always added last and carries no `status`
key. -/
def perform_connectivity_tests (ping : String → String) (dns : String) : Dict :=
  (test_hosts.foldl (fun acc nh => acc ++ pingEntry ping nh) [])
  ++ [("dns_resolution", Value.vdict (dnsEntry dns))]

/-- Python `str(v)` as used in the storage warning f-strings. Mount points
are strings in practice; non-string values get a canonical rendering (their
exact Python `str()` text is irrelevant to every verified claim). -/
def pyStr : Value → String
  | .str s => s
  | .num q => toString q
  | .vbool b => if b then "True" else "False"
  | .vnone => "None"
  | .vlist _ => "<list>"
  | .vdict _ => "<dict>"

/-- Python `for x in v`: lists yield items, dicts yield their keys, strings
yield one-character strings, other values raise `TypeError`. -/
def pyIter (v : Value) : Except String (List Value) :=
  match v with
  | .vlist l => .ok l
  | .vdict d => .ok (d.map (fun p => Value.str p.1))
  | .str s => .ok (s.toList.map (fun c => Value.str (String.singleton c)))
  | _ => .error "TypeError"

/-- Contribution of one subsystem section of
`calculate_comprehensive_system_health`: its `health_metrics` entry and what
it appends to the four shared accumulator lists, in order. -/
structure BranchOut where
  score : ℚ
  critical_issues : List String
  warnings : List String
  recommendations : List String
  critical_findings : List String
deriving DecidableEq

/-- Battery section (isvc.py:1634-1644). -/
def batteryBranch (v : Value) : Except String BranchOut := do
  let bh ← dictGet v "health_analysis" (.vdict [])
  let hsv ← dictGet bh "overall_health_score" (.num 50)
  let hs ← toNum hsv
  if hs < 40 then
    .ok ⟨hs, [], [], ["Immediate battery replacement recommended"],
         ["Battery health critically degraded"]⟩
  else if hs < 70 then
    .ok ⟨hs, [], ["Battery showing signs of wear"],
         ["Monitor battery performance closely"], []⟩
  else
    .ok ⟨hs, [], [], [], []⟩

/-- Performance section (isvc.py:1646-1672). -/
def performanceBranch (v : Value) : Except String BranchOut := do
  let ma ← dictGet v "memory_analysis" (.vdict [])
  let ts ← dictGet v "thermal_summary" (.vdict [])
  let usage ← toNum (← dictGet ma "usage_percent" (.num 0))
  let memPenalty : ℚ := if usage > 90 then 25 else if usage > 80 then 10 else 0
  let maxTemp ← toNum (← dictGet ts "max_temp" (.num 0))
  let thermPenalty : ℚ := if maxTemp > 50 then 20 else if maxTemp > 45 then 10 else 0
  let acu ← toNum (← dictGet v "avg_cpu_utilization" (.num 0))
  let cpuPenalty : ℚ := if acu > 90 then 15 else 0
  .ok ⟨max 0 (70 - memPenalty - thermPenalty - cpuPenalty),
       (if usage > 90 then ["Critical memory usage detected"] else [])
         ++ (if maxTemp > 50 then ["Device overheating detected"] else []),
       (if ¬ usage > 90 ∧ usage > 80 then ["High memory usage"] else [])
         ++ (if ¬ maxTemp > 50 ∧ maxTemp > 45 then ["Device running warm"] else [])
         ++ (if acu > 90 then ["High CPU utilization"] else []),
       (if usage > 90 then ["Close unnecessary applications to free memory"] else [])
         ++ (if maxTemp > 50 then ["Allow device to cool down immediately"] else []),
       []⟩

/-- Security section (isvc.py:1674-1682). -/
def securityBranch (v : Value) : Except String BranchOut := do
  let ss ← toNum (← dictGet v "security_score" (.num 50))
  if ss < 50 then
    .ok ⟨ss, [], [], ["Update system and enable security features"],
         ["Multiple security vulnerabilities detected"]⟩
  else if ss < 75 then
    .ok ⟨ss, [], ["Security configuration suboptimal"], [], []⟩
  else
    .ok ⟨ss, [], [], [], []⟩

/-- Software section (isvc.py:1684-1698). -/
def softwareBranch (v : Value) : Except String BranchOut := do
  let sa ← dictGet v "security_analysis" (.vdict [])
  let lr ← dictGet sa "likely_rooted" (.vbool false)
  if truthy lr then
    let conf ← toNum (← dictGet sa "confidence_score" (.num 0))
    if conf > 60 then
      .ok ⟨35, [], [], ["Consider security implications of root access"],
           ["Device appears to be rooted with high confidence"]⟩
    else if conf > 20 then
      .ok ⟨55, [], ["Possible root access detected"], [], []⟩
    else
      .ok ⟨75, [], [], [], []⟩
  else
    .ok ⟨75, [], [], [], []⟩

/-- Failed-test predicate of the network section (isvc.py:1704-1705):
a value counts as failed exactly when it is a dict whose `status` is the
string `"Failed"`. -/
def isFailedTest (t : Value) : Bool :=
  match t with
  | .vdict td => vIsStr (pyGet td "status" .vnone) "Failed"
  | _ => false

/-- Count of failed tests (isvc.py:1704-1705). -/
def failedCount (ct : Dict) : ℕ :=
  (ct.map (fun p => p.2)).countP isFailedTest

/-- `success_rate` (isvc.py:1709): `(total_tests - failed_tests) / total_tests`. -/
def successRate (ct : Dict) : ℚ :=
  ((ct.length : ℚ) - failedCount ct) / ct.length

/-- Network section (isvc.py:1700-1717). -/
def networkBranch (v : Value) : Except String BranchOut := do
  let ctv ← dictGet v "connectivity_tests" (.vdict [])
  match ctv with
  | .vdict ct =>
    if ct.length > 0 then
      .ok ⟨(pyTrunc (successRate ct * 100) : ℚ),
           (if successRate ct < 1/2 then
             ["Multiple network connectivity failures"] else []),
           (if ¬ successRate ct < 1/2 ∧ successRate ct < 4/5 then
             ["Some network connectivity issues"] else []),
           [], []⟩
    else
      .ok ⟨80, [], [], [], []⟩
  | _ => .error "AttributeError"

/-- Storage section over the `hardware` result (isvc.py:1719-1732). -/
def storageBranch (v : Value) : Except String BranchOut := do
  let sav ← dictGet v "storage_analysis" (.vlist [])
  let items ← pyIter sav
  let acc ← items.foldlM (fun (acc : ℚ × List String × List String) it => do
      let usage ← toNum (← dictGet it "usage_percent" (.num 0))
      let mount ← dictGet it "mount_point" (.str "Unknown")
      if usage > 95 then
        .ok (acc.1 - 30, acc.2.1,
             acc.2.2 ++ ["Storage critically full: " ++ pyStr mount])
      else if usage > 85 then
        .ok (acc.1 - 15, acc.2.1 ++ ["Storage nearly full: " ++ pyStr mount],
             acc.2.2)
      else
        .ok acc)
    ((100 : ℚ), ([] : List String), ([] : List String))
  .ok ⟨max 0 acc.1, [], acc.2.1, [], acc.2.2⟩

/-- `cpu_failures` (isvc.py:1740): tests whose `completed` field is not
truthy. -/
def cpuFailCount (items : List Value) : Except String ℕ :=
  items.foldlM (fun (n : ℕ) it => do
    let c ← dictGet it "completed" (.vbool false)
    .ok (if truthy c then n else n + 1)) 0

/-- `io_failures` (isvc.py:1741): tests whose `status` is not the string
`"Completed"`. -/
def ioFailCount (items : List Value) : Except String ℕ :=
  items.foldlM (fun (n : ℕ) it => do
    let s ← dictGet it "status" .vnone
    .ok (if vIsStr s "Completed" then n else n + 1)) 0

/-- Stability section over the `stress_test` result (isvc.py:1734-1755). -/
def stressBranch (v : Value) : Except String BranchOut := do
  let cpuv ← dictGet v "cpu_stress_tests" (.vlist [])
  let cpuItems ← pyIter cpuv
  let iov ← dictGet v "io_stress_tests" (.vlist [])
  let ioItems ← pyIter iov
  let memv ← dictGet v "memory_stress_test" (.vdict [])
  let cpuFailures ← cpuFailCount cpuItems
  let ioFailures ← ioFailCount ioItems
  let memStability ← dictGet memv "stability" .vnone
  let memStable := vIsStr memStability "Stable"
  .ok ⟨max 0 (100 - 15 * (cpuFailures : ℚ) - 10 * (ioFailures : ℚ)
        - (if memStable then 0 else 20)),
       [],
       (if cpuFailures > 0 then
          [toString cpuFailures ++ " CPU stress test failures"] else [])
         ++ (if ioFailures > 0 then
          [toString ioFailures ++ " I/O performance issues"] else [])
         ++ (if memStable then [] else ["Memory stability concerns detected"]),
       [], []⟩

/-- The aggregator's view of `self.results`: each of the seven keys it reads,
present (with the probe's payload or an error-record dict) or absent. -/
structure ScanResults where
  battery : Option Value
  performance : Option Value
  security : Option Value
  software : Option Value
  network : Option Value
  hardware : Option Value
  stress_test : Option Value

/-- Runs a subsystem section when its key is in `self.results`; an absent
subsystem leaves its zero-initialised `health_metrics` entry and appends
nothing. -/
def branchOr (f : Value → Except String BranchOut) : Option Value → Except String BranchOut
  | some v => f v
  | none => .ok ⟨0, [], [], [], []⟩

/-- Status and reliability step function (isvc.py:1761-1775). -/
def statusReliability (s : ℚ) : String × ℚ :=
  if s ≥ 90 then ("EXCELLENT", 95)
  else if s ≥ 80 then ("GOOD", 85)
  else if s ≥ 70 then ("FAIR", 70)
  else if s ≥ 50 then ("POOR", 50)
  else ("CRITICAL", 25)

/-- Return value of `calculate_comprehensive_system_health`
(isvc.py:1780-1789); `critical_issues` and `warnings` are the lengths of the
accumulator lists. -/
structure CompositeHealth where
  status : String
  score : ℚ
  reliability_index : ℚ
  critical_issues : ℕ
  warnings : ℕ
  recommendations : List String
  critical_findings : List String
  component_scores : List (String × ℚ)
deriving DecidableEq

/-- `ISVC.calculate_comprehensive_system_health` (isvc.py:1608-1789): run the
seven subsystem sections in program order, sum all seven `health_metrics`
entries (absent subsystems stay 0), divide by the fixed `max_total` of 700
and rescale to 100. -/
def calculate_comprehensive_system_health (r : ScanResults) :
    Except String CompositeHealth := do
  let b ← branchOr batteryBranch r.battery
  let p ← branchOr performanceBranch r.performance
  let se ← branchOr securityBranch r.security
  let so ← branchOr softwareBranch r.software
  let ne ← branchOr networkBranch r.network
  let st ← branchOr storageBranch r.hardware
  let sb ← branchOr stressBranch r.stress_test
  let total := b.score + p.score + se.score + so.score + ne.score + st.score + sb.score
  let overall := total / 700 * 100
  let sr := statusReliability overall
  let recs := b.recommendations ++ p.recommendations ++ se.recommendations
    ++ so.recommendations ++ ne.recommendations ++ st.recommendations
    ++ sb.recommendations
  .ok
    { status := sr.1
      score := overall
      reliability_index := sr.2
      critical_issues := (b.critical_issues ++ p.critical_issues
        ++ se.critical_issues ++ so.critical_issues ++ ne.critical_issues
        ++ st.critical_issues ++ sb.critical_issues).length
      warnings := (b.warnings ++ p.warnings ++ se.warnings ++ so.warnings
        ++ ne.warnings ++ st.warnings ++ sb.warnings).length
      recommendations :=
        if recs = [] then ["System performing within normal parameters"] else recs
      critical_findings := b.critical_findings ++ p.critical_findings
        ++ se.critical_findings ++ so.critical_findings ++ ne.critical_findings
        ++ st.critical_findings ++ sb.critical_findings
      component_scores :=
        [("battery", b.score), ("performance", p.score), ("security", se.score),
         ("software", so.score), ("network", ne.score), ("storage", st.score),
         ("stability", sb.score)] }

/-- Lookup in the `component_scores` map. -/
def compScore (l : List (String × ℚ)) (k : String) : Option ℚ :=
  (l.find? (fun p => p.1 = k)).map (fun p => p.2)

/-- Final state of one submitted analysis task relative to the scan's 720 s
`as_completed` deadline (isvc.py:1886-1922). -/
inductive TaskOutcome where
  | completed (v : Value) : TaskOutcome
  | raised (msg : String) : TaskOutcome
  | pending : TaskOutcome

/-- Error record stored by the per-task `except` handler (isvc.py:1922). -/
def errorRecord (msg : String) : Value :=
  .vdict [("error", .str msg), ("partial_data", .vbool true)]

/-- Entry written into `self.results` for one task, if any: a completed
task's payload, a raising task's error record, and nothing for a task still
pending at the deadline. -/
def recordFor : TaskOutcome → Option Value
  | .completed v => some v
  | .raised e => some (errorRecord e)
  | .pending => none

/-- Result-collection loop of `run_comprehensive_scan` (isvc.py:1886-1922):
`outcomes` lists the seven submitted tasks in completion order with their
final status. The first component is the content of `self.results`; the
second is `true` exactly when some task was still pending at the 720 s
deadline, in which case `as_completed` raises `concurrent.futures.TimeoutError`
outside the per-task `try`, aborting `run_comprehensive_scan` before the
pending tasks are recorded. -/
def collectScanResults (outcomes : List (String × TaskOutcome)) :
    List (String × Value) × Bool :=
  (outcomes.filterMap (fun p => (recordFor p.2).map (fun v => (p.1, v))),
   outcomes.any (fun p => match p.2 with | .pending => true | _ => false))

/-- A scan in which no subsystem produced a result. -/
def emptyScan : ScanResults := ⟨none, none, none, none, none, none, none⟩

/-- The composite result of an empty scan: all seven entries stay 0, the
score is 0, and the default recommendation is emitted. -/
def emptyComposite : CompositeHealth where
  status := "CRITICAL"
  score := 0
  reliability_index := 25
  critical_issues := 0
  warnings := 0
  recommendations := ["System performing within normal parameters"]
  critical_findings := []
  component_scores :=
    [("battery", 0), ("performance", 0), ("security", 0), ("software", 0),
     ("network", 0), ("storage", 0), ("stability", 0)]

/-- Connectivity-test map with three tests of which exactly one is marked
failed. -/
def oneFailedTests : Dict :=
  [("a", .vdict [("status", .str "Failed")]), ("b", .vdict []), ("c", .vdict [])]

/-- A scan whose only present subsystem is a network result with
`oneFailedTests`. -/
def oneFailedScan : ScanResults :=
  ⟨none, none, none, none,
   some (.vdict [("connectivity_tests", .vdict oneFailedTests)]), none, none⟩

/-- Composite result of `oneFailedScan`: the network entry is
`int(2/3 * 100) = 66` and the overall score `66/700*100 = 66/7`. -/
def oneFailedComposite : CompositeHealth where
  status := "CRITICAL"
  score := 66 / 7
  reliability_index := 25
  critical_issues := 0
  warnings := 1
  recommendations := ["System performing within normal parameters"]
  critical_findings := []
  component_scores :=
    [("battery", 0), ("performance", 0), ("security", 0), ("software", 0),
     ("network", 66), ("storage", 0), ("stability", 0)]

/-- Connectivity-test map holding only the `dns_resolution` entry. -/
def dnsOnlyTests : Dict := [("dns_resolution", .vdict [])]

/-- A scan whose only present subsystem is a network result with
`dnsOnlyTests`. -/
def dnsOnlyScan : ScanResults :=
  ⟨none, none, none, none,
   some (.vdict [("connectivity_tests", .vdict dnsOnlyTests)]), none, none⟩

/-- Composite result of `dnsOnlyScan`: one test, zero failed, network entry
100, overall score `100/700*100 = 100/7`. -/
def dnsOnlyComposite : CompositeHealth where
  status := "CRITICAL"
  score := 100 / 7
  reliability_index := 25
  critical_issues := 0
  warnings := 0
  recommendations := ["System performing within normal parameters"]
  critical_findings := []
  component_scores :=
    [("battery", 0), ("performance", 0), ("security", 0), ("software", 0),
     ("network", 100), ("storage", 0), ("stability", 0)]

theorem dlookup_cons_self (k : String) (v : Value) (rest : Dict) :
    dlookup ((k, v) :: rest) k = some v := by
  simp [dlookup]

theorem dlookup_append_of_keys {l₁ l₂ : Dict} {k : String}
    (h : ∀ p ∈ l₁, p.1 ≠ k) : dlookup (l₁ ++ l₂) k = dlookup l₂ k := by
  induction l₁ with
  | nil => simp
  | cons a t ih =>
    have ha : ¬ (a.1 = k) := h a (by simp)
    have ht : ∀ p ∈ t, p.1 ≠ k := fun p hp => h p (by simp [hp])
    simp only [List.cons_append, dlookup]
    rw [List.find?_cons_of_neg _ (by simpa using ha)]
    exact ih ht

/-- C7: for a battery probe result with a known numeric capacity ratio
(`design_cap > 0`), the stored `overall_health_score` is
`0.5*capacity_ratio + 0.2*voltage_health - 0.15*thermal_penalty -
0.15*cycle_degradation` clamped to `[0, 100]`, where the voltage term is
`0.2 * 80` when no positive voltage reading is available, and the thermal
and cycle terms are present only for a positive temperature reading and a
positive cycle count. -/
theorem battery_overall_health_score_formula
    (current_cap design_cap cycle_count voltage temperature : ℚ)
    (hd : 0 < design_cap) :
    dlookup
      (calculate_battery_health_comprehensive current_cap design_cap
        cycle_count voltage temperature)
      "overall_health_score"
    = some (.num (max 0 (min 100 (
        (1/2) * (current_cap / design_cap * 100)
        + (if 0 < voltage then (1/5) * min 100 (voltage / 4200 * 100) else (1/5) * 80)
        - (if 0 < temperature then (3/20) * thermalPenaltyOf temperature else 0)
        - (if 0 < cycle_count then (3/20) * min 50 (cycle_count / 1000 * 25) else 0))))) := by
  unfold calculate_battery_health_comprehensive
  rw [List.append_assoc, List.append_assoc, List.append_assoc]
  rw [dlookup_append_of_keys (by unfold batteryCapPart; split <;> simp)]
  rw [dlookup_append_of_keys (by unfold batteryVoltPart; split <;> simp)]
  rw [dlookup_append_of_keys (by unfold batteryTempPart; split <;> simp)]
  rw [dlookup_append_of_keys (by unfold batteryCyclePart; split <;> simp)]
  rw [dlookup_cons_self]
  exact congrArg (fun q : ℚ => (some (Value.num (max 0 (min 100 q))) : Option Value))
    (by unfold batteryOverallHealth; rw [if_pos hd]; split_ifs <;> ring)

/-- Witness for C7 at `current_cap = 80`, `design_cap = 100`,
`cycle_count = 500`, `voltage = 4000`, `temperature = 30`. -/
theorem battery_overall_health_score_formula_witness :
    (0:ℚ) < 100 ∧
    dlookup
      (calculate_battery_health_comprehensive 80 100 500 4000 30)
      "overall_health_score"
    = some (.num (max 0 (min 100 (
        (1/2) * ((80:ℚ) / 100 * 100)
        + (if (0:ℚ) < 4000 then (1/5) * min 100 ((4000:ℚ) / 4200 * 100) else (1/5) * 80)
        - (if (0:ℚ) < 30 then (3/20) * thermalPenaltyOf 30 else 0)
        - (if (0:ℚ) < 500 then (3/20) * min 50 ((500:ℚ) / 1000 * 25) else 0))))) :=
  ⟨by norm_num,
   battery_overall_health_score_formula 80 100 500 4000 30 (by norm_num)⟩

theorem except_bind_ok {α β : Type} {x : Except String α} {f : α → Except String β} {b : β}
    (h : x >>= f = .ok b) : ∃ a, x = .ok a ∧ f a = .ok b := by
  cases x with
  | error e => simp [Bind.bind, Except.bind] at h
  | ok a => exact ⟨a, rfl, by simpa [Bind.bind, Except.bind] using h⟩

/-- C3 counterexample: for the series `["a", 5, "b"]` the single numeric
sample is 5, so first and last numeric sample are equal and the claim
demands trend `"stable"`; the code instead compares the raw endpoints
`"a"`/`"b"` and reports `"increasing"`, with `first_reading`/`last_reading`
being the raw non-numeric strings rather than numeric samples. -/
theorem analyze_trend_raw_endpoints_cex :
    analyze_monitoring_data
      [("m", [⟨0, .str "a"⟩, ⟨1, .num 5⟩, ⟨2, .str "b"⟩])]
    = .ok [("m",
      [("sample_count", .num 1), ("min_value", .num 5), ("max_value", .num 5),
       ("average", .num 5), ("median", .num 5), ("range", .num 0),
       ("first_reading", .str "a"), ("last_reading", .str "b"),
       ("trend", .str "increasing")])]
    ∧ ("increasing" : String) ≠ "stable" :=
  ⟨by with_unfolding_all rfl, by decide⟩

/-- C3 amended: `first_reading` and `last_reading` are the raw (possibly
non-numeric) endpoints of the full series, and `trend` is Python's
comparison of the raw last sample against the raw first sample —
`"increasing"` / `"decreasing"` / `"stable"` — whenever that comparison
succeeds; non-numeric samples are excluded only from the arithmetic
statistics, not from first/last/trend. -/
theorem metricStats_raw_endpoints (d0 : Sample) (dps : List Sample) (st : Dict)
    (hok : metricStats (d0 :: dps) = .ok (some st)) :
    dlookup st "first_reading" = some d0.value
    ∧ dlookup st "last_reading" = some (dps.getLastD d0).value
    ∧ ∃ gt lt : Bool,
        pyGtV (dps.getLastD d0).value d0.value = .ok gt
        ∧ pyLtV (dps.getLastD d0).value d0.value = .ok lt
        ∧ dlookup st "trend" =
            some (.str (if gt then "increasing"
              else if lt then "decreasing" else "stable")) := by
  rw [metricStats] at hok
  dsimp only at hok
  rcases hnum : numericValues (d0 :: dps) with _ | ⟨n0, ntl⟩
  · rw [hnum] at hok
    exact absurd hok (by simp)
  · rw [hnum] at hok
    dsimp only at hok
    obtain ⟨gt, hgt, hok⟩ := except_bind_ok hok
    obtain ⟨lt, hlt, hok⟩ := except_bind_ok hok
    have hL := Option.some.inj (Except.ok.inj hok)
    subst hL
    refine ⟨by simp [dlookup, List.find?], by simp [dlookup, List.find?],
      gt, lt, hgt, hlt, by simp [dlookup, List.find?]⟩

/-- Witness for the C3 amended theorem at the two-sample numeric series
`[3, 7]`. -/
theorem metricStats_raw_endpoints_witness :
    dlookup
      [("sample_count", .num 2), ("min_value", .num 3), ("max_value", .num 7),
       ("average", .num 5), ("median", .num 5), ("range", .num 4),
       ("first_reading", .num 3), ("last_reading", .num 7),
       ("trend", .str "increasing")] "first_reading" = some (Value.num 3)
    ∧ dlookup
      [("sample_count", .num 2), ("min_value", .num 3), ("max_value", .num 7),
       ("average", .num 5), ("median", .num 5), ("range", .num 4),
       ("first_reading", .num 3), ("last_reading", .num 7),
       ("trend", .str "increasing")] "last_reading"
      = some (([Sample.mk 1 (Value.num 7)].getLastD (Sample.mk 0 (Value.num 3))).value)
    ∧ ∃ gt lt : Bool,
        pyGtV (([Sample.mk 1 (Value.num 7)].getLastD (Sample.mk 0 (Value.num 3))).value) (Value.num 3) = .ok gt
        ∧ pyLtV (([Sample.mk 1 (Value.num 7)].getLastD (Sample.mk 0 (Value.num 3))).value) (Value.num 3) = .ok lt
        ∧ dlookup
          [("sample_count", .num 2), ("min_value", .num 3), ("max_value", .num 7),
           ("average", .num 5), ("median", .num 5), ("range", .num 4),
           ("first_reading", .num 3), ("last_reading", .num 7),
           ("trend", .str "increasing")] "trend" =
            some (.str (if gt then "increasing"
              else if lt then "decreasing" else "stable")) :=
  metricStats_raw_endpoints (Sample.mk 0 (Value.num 3)) [Sample.mk 1 (Value.num 7)] _ (by with_unfolding_all rfl)

/-- C8 counterexample: for the two-sample numeric series `[1/4, 1/2]` the
statistical median is `3/8` (= 0.375) but the reported median is
`round(0.375, 2) = 0.38 = 19/50`, so the reported median of an N > 1 series
is not the statistical median. -/
theorem metricStats_median_rounded_cex :
    metricStats [Sample.mk 0 (.num (1/4)), Sample.mk 1 (.num (1/2))]
      = .ok (some
        [("sample_count", .num 2), ("min_value", .num (1/4)), ("max_value", .num (1/2)),
         ("average", .num (19/50)), ("median", .num (19/50)), ("range", .num (1/4)),
         ("first_reading", .num (1/4)), ("last_reading", .num (1/2)),
         ("trend", .str "increasing")])
    ∧ medianQ [1/4, 1/2] = 3/8
    ∧ ((19:ℚ)/50) ≠ 3/8 :=
  ⟨by with_unfolding_all rfl, by with_unfolding_all rfl, by norm_num⟩

/-- C8 amended: the reported median is the single sample when exactly one
numeric sample exists and the statistical median rounded to two decimals
(`round(·, 2)`, ties to even) when more than one exists; variance and
stability are reported exactly when N > 2, and stability is `"stable"`
precisely when the sample variance is below `0.1 ×` the maximum numeric
sample. -/
theorem metricStats_median_variance (dps : List Sample) (st : Dict)
    (hok : metricStats dps = .ok (some st)) :
    (∀ x : ℚ, numericValues dps = [x] → dlookup st "median" = some (.num x))
    ∧ (1 < (numericValues dps).length →
        dlookup st "median" = some (.num (pyRound2 (medianQ (numericValues dps)))))
    ∧ ((dlookup st "variance").isSome ↔ 2 < (numericValues dps).length)
    ∧ (2 < (numericValues dps).length →
        dlookup st "stability" = some (.str
          (if varianceQ (numericValues dps) < maxQ (numericValues dps) * (1/10)
           then "stable" else "variable"))) := by
  cases dps with
  | nil => exact absurd hok (by simp [metricStats])
  | cons d0 rest =>
    rw [metricStats] at hok
    dsimp only at hok
    rcases hnum : numericValues (d0 :: rest) with _ | ⟨n0, ntl⟩
    · rw [hnum] at hok
      exact absurd hok (by simp)
    · rw [hnum] at hok
      dsimp only at hok
      obtain ⟨gt, hgt, hok⟩ := except_bind_ok hok
      obtain ⟨lt, hlt, hok⟩ := except_bind_ok hok
      have hL := Option.some.inj (Except.ok.inj hok)
      subst hL
      refine ⟨?_, ?_, ?_, ?_⟩
      · intro x hx
        injection hx with hx0 hx1
        subst hx0
        subst hx1
        simp [dlookup, List.find?]
      · intro hlen
        rw [if_pos hlen]
        simp [dlookup, List.find?]
      · by_cases h2 : (n0 :: ntl).length > 2
        · rw [if_pos h2]
          simp only [List.length_cons] at h2
          simp [dlookup, List.find?, h2]
        · rw [if_neg h2]
          simp only [List.length_cons] at h2
          simp [dlookup, List.find?]
          omega
      · intro h2
        rw [if_pos h2]
        simp [dlookup, List.find?]

/-- Witness for the C8 amended theorem at the three-sample numeric series
`[3, 7, 5]`. -/
theorem metricStats_median_variance_witness :
    (∀ x : ℚ,
      numericValues [Sample.mk 0 (.num 3), Sample.mk 1 (.num 7), Sample.mk 2 (.num 5)] = [x] →
      dlookup
        [("sample_count", .num 3), ("min_value", .num 3), ("max_value", .num 7),
         ("average", .num 5), ("median", .num 5), ("range", .num 4),
         ("first_reading", .num 3), ("last_reading", .num 5),
         ("trend", .str "increasing"), ("variance", .num 4),
         ("stability", .str "variable")] "median" = some (.num x))
    ∧ (1 < (numericValues [Sample.mk 0 (.num 3), Sample.mk 1 (.num 7), Sample.mk 2 (.num 5)]).length →
        dlookup
        [("sample_count", .num 3), ("min_value", .num 3), ("max_value", .num 7),
         ("average", .num 5), ("median", .num 5), ("range", .num 4),
         ("first_reading", .num 3), ("last_reading", .num 5),
         ("trend", .str "increasing"), ("variance", .num 4),
         ("stability", .str "variable")] "median"
        = some (.num (pyRound2 (medianQ (numericValues
            [Sample.mk 0 (.num 3), Sample.mk 1 (.num 7), Sample.mk 2 (.num 5)])))))
    ∧ ((dlookup
        [("sample_count", .num 3), ("min_value", .num 3), ("max_value", .num 7),
         ("average", .num 5), ("median", .num 5), ("range", .num 4),
         ("first_reading", .num 3), ("last_reading", .num 5),
         ("trend", .str "increasing"), ("variance", .num 4),
         ("stability", .str "variable")] "variance").isSome
        ↔ 2 < (numericValues [Sample.mk 0 (.num 3), Sample.mk 1 (.num 7), Sample.mk 2 (.num 5)]).length)
    ∧ (2 < (numericValues [Sample.mk 0 (.num 3), Sample.mk 1 (.num 7), Sample.mk 2 (.num 5)]).length →
        dlookup
        [("sample_count", .num 3), ("min_value", .num 3), ("max_value", .num 7),
         ("average", .num 5), ("median", .num 5), ("range", .num 4),
         ("first_reading", .num 3), ("last_reading", .num 5),
         ("trend", .str "increasing"), ("variance", .num 4),
         ("stability", .str "variable")] "stability"
        = some (.str
          (if varianceQ (numericValues
                [Sample.mk 0 (.num 3), Sample.mk 1 (.num 7), Sample.mk 2 (.num 5)])
              < maxQ (numericValues
                [Sample.mk 0 (.num 3), Sample.mk 1 (.num 7), Sample.mk 2 (.num 5)]) * (1/10)
           then "stable" else "variable"))) :=
  metricStats_median_variance
    [Sample.mk 0 (.num 3), Sample.mk 1 (.num 7), Sample.mk 2 (.num 5)] _
    (by with_unfolding_all rfl)

theorem totalSamples_appendSample (md : List (String × List Sample))
    (m : String) (s : Sample) :
    totalSamples (appendSample md m s) = totalSamples md + 1 := by
  induction md with
  | nil => simp [appendSample, totalSamples]
  | cons p rest ih =>
    obtain ⟨k, l⟩ := p
    by_cases hk : k = m
    · simp [appendSample, hk, totalSamples]
      omega
    · simp [appendSample, hk, totalSamples] at ih ⊢
      omega

theorem totalSamples_tickFold (ms : List String) (md : List (String × List Sample))
    (ts : ℚ) (res : String → String) :
    totalSamples (ms.foldl (fun md m =>
      let r := res m
      if r ≠ "" ∧ r.trim ≠ "" then appendSample md m ⟨ts, tickValue m r⟩ else md) md)
      ≤ totalSamples md + ms.length := by
  induction ms generalizing md with
  | nil => simp
  | cons m rest ih =>
    simp only [List.foldl_cons, List.length_cons]
    refine le_trans (ih _) ?_
    have hstep : totalSamples
        (if res m ≠ "" ∧ (res m).trim ≠ "" then
          appendSample md m ⟨ts, tickValue m (res m)⟩ else md)
        ≤ totalSamples md + 1 := by
      split
      · rw [totalSamples_appendSample]
      · omega
    omega

/-- C9 counterexample: in a tick where six of the seven metric commands
return `"1"` and `load_avg` returns the empty string, six samples are
appended but `data_points_collected` grows by seven (the number of commands
issued), so the counter does not equal the number of samples collected. -/
theorem monitor_counter_cex :
    (runMonitor ⟨[], 0⟩
      [(0, fun m => if m = "load_avg" then "" else "1")]).data_points_collected = 7
    ∧ totalSamples (runMonitor ⟨[], 0⟩
      [(0, fun m => if m = "load_avg" then "" else "1")]).monitoring_data = 6
    ∧ (7 : ℕ) ≠ 6 :=
  ⟨by with_unfolding_all rfl, by with_unfolding_all rfl, by decide⟩

/-- C9 amended: `data_points_collected` grows by exactly
`len(monitoring_commands)` (seven) per tick — counting commands attempted,
not samples stored — so after any run it equals its initial value plus
7 × (number of ticks); it is monotonically nondecreasing, and it is an upper
bound on (not equal to) the total number of samples appended across all
per-metric series. -/
theorem monitor_counter_counts_commands (st : MonState)
    (ticks : List (ℚ × (String → String))) :
    (runMonitor st ticks).data_points_collected
      = st.data_points_collected + monitoringMetrics.length * ticks.length
    ∧ st.data_points_collected ≤ (runMonitor st ticks).data_points_collected
    ∧ totalSamples (runMonitor st ticks).monitoring_data
      ≤ totalSamples st.monitoring_data + monitoringMetrics.length * ticks.length := by
  induction ticks generalizing st with
  | nil => simp [runMonitor]
  | cons t rest ih =>
    have hrun : runMonitor st (t :: rest) = runMonitor (monitorTick st t.1 t.2) rest := rfl
    obtain ⟨ih1, ih2, ih3⟩ := ih (monitorTick st t.1 t.2)
    have hcount : (monitorTick st t.1 t.2).data_points_collected
        = st.data_points_collected + monitoringMetrics.length := rfl
    have hsamp : totalSamples (monitorTick st t.1 t.2).monitoring_data
        ≤ totalSamples st.monitoring_data + monitoringMetrics.length :=
      totalSamples_tickFold monitoringMetrics st.monitoring_data t.1 t.2
    refine ⟨?_, ?_, ?_⟩
    · rw [hrun, ih1, hcount]
      simp [List.length_cons]
      ring
    · rw [hrun]
      omega
    · rw [hrun]
      refine le_trans ih3 ?_
      simp only [List.length_cons]
      have : monitoringMetrics.length * (rest.length + 1)
          = monitoringMetrics.length * rest.length + monitoringMetrics.length := by ring
      omega

theorem health_decompose {r : ScanResults} {h : CompositeHealth}
    (hok : calculate_comprehensive_system_health r = .ok h) :
    ∃ b p se so ne st sb : BranchOut,
      branchOr batteryBranch r.battery = .ok b
      ∧ branchOr performanceBranch r.performance = .ok p
      ∧ branchOr securityBranch r.security = .ok se
      ∧ branchOr softwareBranch r.software = .ok so
      ∧ branchOr networkBranch r.network = .ok ne
      ∧ branchOr storageBranch r.hardware = .ok st
      ∧ branchOr stressBranch r.stress_test = .ok sb
      ∧ h.score = (b.score + p.score + se.score + so.score + ne.score
          + st.score + sb.score) / 700 * 100
      ∧ h.status = (statusReliability h.score).1
      ∧ h.reliability_index = (statusReliability h.score).2
      ∧ h.component_scores =
          [("battery", b.score), ("performance", p.score), ("security", se.score),
           ("software", so.score), ("network", ne.score), ("storage", st.score),
           ("stability", sb.score)] := by
  rw [calculate_comprehensive_system_health] at hok
  obtain ⟨b, hb, hok⟩ := except_bind_ok hok
  obtain ⟨p, hp, hok⟩ := except_bind_ok hok
  obtain ⟨se, hse, hok⟩ := except_bind_ok hok
  obtain ⟨so, hso, hok⟩ := except_bind_ok hok
  obtain ⟨ne, hne, hok⟩ := except_bind_ok hok
  obtain ⟨st, hst, hok⟩ := except_bind_ok hok
  obtain ⟨sb, hsb, hok⟩ := except_bind_ok hok
  have hrec := Except.ok.inj hok
  refine ⟨b, p, se, so, ne, st, sb, hb, hp, hse, hso, hne, hst, hsb, ?_, ?_, ?_, ?_⟩
  · rw [← hrec]
  · rw [← hrec]
  · rw [← hrec]
  · rw [← hrec]

/-- C1: whenever the health aggregation returns, the composite score is the
sum of all seven `health_metrics` entries divided by the fixed
`max_total = 700` and rescaled by 100, where a subsystem absent from
`self.results` leaves its entry at the zero it was initialised with — so
absent subsystems count zero in the numerator while still contributing 100
to the fixed denominator. -/
theorem health_composite_fixed_denominator (r : ScanResults) (h : CompositeHealth)
    (hok : calculate_comprehensive_system_health r = .ok h) :
    h.score = ((h.component_scores.map Prod.snd).sum) / 700 * 100
    ∧ (r.battery = none → compScore h.component_scores "battery" = some 0)
    ∧ (r.performance = none → compScore h.component_scores "performance" = some 0)
    ∧ (r.security = none → compScore h.component_scores "security" = some 0)
    ∧ (r.software = none → compScore h.component_scores "software" = some 0)
    ∧ (r.network = none → compScore h.component_scores "network" = some 0)
    ∧ (r.hardware = none → compScore h.component_scores "storage" = some 0)
    ∧ (r.stress_test = none → compScore h.component_scores "stability" = some 0) := by
  obtain ⟨b, p, se, so, ne, st, sb, hb, hp, hse, hso, hne, hst, hsb,
    hscore, hstat, hri, hcomp⟩ := health_decompose hok
  refine ⟨?_, ?_, ?_, ?_, ?_, ?_, ?_, ?_⟩
  · rw [hscore, hcomp]
    simp only [List.map_cons, List.map_nil, List.sum_cons, List.sum_nil]
    ring_nf
  all_goals
    intro hnone
    rw [hcomp]
  · rw [hnone] at hb
    have : BranchOut.mk 0 [] [] [] [] = b := Except.ok.inj hb
    rw [← this]
    simp [compScore]
  · rw [hnone] at hp
    have : BranchOut.mk 0 [] [] [] [] = p := Except.ok.inj hp
    rw [← this]
    simp [compScore]
  · rw [hnone] at hse
    have : BranchOut.mk 0 [] [] [] [] = se := Except.ok.inj hse
    rw [← this]
    simp [compScore]
  · rw [hnone] at hso
    have : BranchOut.mk 0 [] [] [] [] = so := Except.ok.inj hso
    rw [← this]
    simp [compScore]
  · rw [hnone] at hne
    have : BranchOut.mk 0 [] [] [] [] = ne := Except.ok.inj hne
    rw [← this]
    simp [compScore]
  · rw [hnone] at hst
    have : BranchOut.mk 0 [] [] [] [] = st := Except.ok.inj hst
    rw [← this]
    simp [compScore]
  · rw [hnone] at hsb
    have : BranchOut.mk 0 [] [] [] [] = sb := Except.ok.inj hsb
    rw [← this]
    simp [compScore]

/-- Witness for C1: a run whose only present subsystem is `security` scoring
70 yields a composite score of `70 / 700 * 100 = 10`, not 70. -/
theorem health_composite_fixed_denominator_witness :
    calculate_comprehensive_system_health
      ⟨none, none, some (.vdict [("security_score", .num 70)]), none, none, none, none⟩
      = .ok
        { status := "CRITICAL", score := 10, reliability_index := 25,
          critical_issues := 0, warnings := 1,
          recommendations := ["System performing within normal parameters"],
          critical_findings := [],
          component_scores :=
            [("battery", 0), ("performance", 0), ("security", 70), ("software", 0),
             ("network", 0), ("storage", 0), ("stability", 0)] }
    ∧ (10 : ℚ)
      = ((([("battery", 0), ("performance", 0), ("security", (70:ℚ)), ("software", 0),
          ("network", 0), ("storage", 0), ("stability", 0)]).map Prod.snd).sum) / 700 * 100
    ∧ (10 : ℚ) ≠ 70 :=
  ⟨by with_unfolding_all rfl,
   (health_composite_fixed_denominator
      ⟨none, none, some (.vdict [("security_score", .num 70)]), none, none, none, none⟩
      { status := "CRITICAL", score := 10, reliability_index := 25,
        critical_issues := 0, warnings := 1,
        recommendations := ["System performing within normal parameters"],
        critical_findings := [],
        component_scores :=
          [("battery", 0), ("performance", 0), ("security", 70), ("software", 0),
           ("network", 0), ("storage", 0), ("stability", 0)] }
      (by with_unfolding_all rfl)).1,
   by norm_num⟩

/-- C5: the status/reliability mapping is the fixed step function
≥90 → EXCELLENT/95, ≥80 → GOOD/85, ≥70 → FAIR/70, ≥50 → POOR/50, else
CRITICAL/25, and every returned `CompositeHealth` carries exactly the step
function of its own composite score. -/
theorem status_reliability_step (s : ℚ) (r : ScanResults) (h : CompositeHealth)
    (hok : calculate_comprehensive_system_health r = .ok h) :
    (s ≥ 90 → statusReliability s = ("EXCELLENT", 95))
    ∧ (¬ s ≥ 90 → s ≥ 80 → statusReliability s = ("GOOD", 85))
    ∧ (¬ s ≥ 80 → s ≥ 70 → statusReliability s = ("FAIR", 70))
    ∧ (¬ s ≥ 70 → s ≥ 50 → statusReliability s = ("POOR", 50))
    ∧ (¬ s ≥ 50 → statusReliability s = ("CRITICAL", 25))
    ∧ h.status = (statusReliability h.score).1
    ∧ h.reliability_index = (statusReliability h.score).2 := by
  obtain ⟨b, p, se, so, ne, st, sb, hb, hp, hse, hso, hne, hst, hsb,
    hscore, hstat, hri, hcomp⟩ := health_decompose hok
  refine ⟨?_, ?_, ?_, ?_, ?_, hstat, hri⟩
  · intro h1
    rw [statusReliability, if_pos h1]
  · intro h1 h2
    rw [statusReliability, if_neg h1, if_pos h2]
  · intro h1 h2
    have h90 : ¬ s ≥ 90 := fun hc => h1 (le_trans (by norm_num) hc)
    rw [statusReliability, if_neg h90, if_neg h1, if_pos h2]
  · intro h1 h2
    have h80 : ¬ s ≥ 80 := fun hc => h1 (le_trans (by norm_num) hc)
    have h90 : ¬ s ≥ 90 := fun hc => h1 (le_trans (by norm_num) hc)
    rw [statusReliability, if_neg h90, if_neg h80, if_neg h1, if_pos h2]
  · intro h1
    have h70 : ¬ s ≥ 70 := fun hc => h1 (le_trans (by norm_num) hc)
    have h80 : ¬ s ≥ 80 := fun hc => h1 (le_trans (by norm_num) hc)
    have h90 : ¬ s ≥ 90 := fun hc => h1 (le_trans (by norm_num) hc)
    rw [statusReliability, if_neg h90, if_neg h80, if_neg h70, if_neg h1]

/-- Witness for C5 at `s = 85` and an empty run (composite score 0,
CRITICAL/25). -/
theorem status_reliability_step_witness :
    statusReliability 85 = ("GOOD", 85)
    ∧ emptyComposite.status = (statusReliability emptyComposite.score).1
    ∧ emptyComposite.reliability_index = (statusReliability emptyComposite.score).2 :=
  let T := status_reliability_step 85 emptyScan emptyComposite
    (by with_unfolding_all rfl)
  ⟨T.2.1 (by norm_num) (by norm_num), T.2.2.2.2.2.1, T.2.2.2.2.2.2⟩

/-- C4 counterexample: with three connectivity tests of which one failed,
`(successes / total) × 100 = 200/3` is not an integer; the code stores
`int(success_rate * 100) = 66`, so the network subsystem score is not
exactly `(successes / total) × 100`. -/
theorem network_score_truncated_cex :
    calculate_comprehensive_system_health oneFailedScan = .ok oneFailedComposite
    ∧ compScore oneFailedComposite.component_scores "network" = some 66
    ∧ (66 : ℚ) ≠ ((3 - 1) / 3) * 100 :=
  ⟨by with_unfolding_all rfl, by with_unfolding_all rfl, by norm_num⟩

/-- C4 amended: when the network probe completed and at least one
connectivity test ran, the network score is `int(success_rate × 100)` — the
rate `(total - failed)/total` times 100 truncated to an integer, not the
exact product; a critical issue is recorded exactly when the rate is below
0.5 and a warning exactly when it is in [0.5, 0.8); the composite's
`network` component equals that truncated score. -/
theorem network_score_formula (nv ct : Dict)
    (hct : dlookup nv "connectivity_tests" = some (.vdict ct)) (hpos : ct ≠ []) :
    networkBranch (.vdict nv) = .ok
      ⟨((pyTrunc (successRate ct * 100) : ℤ) : ℚ),
       (if successRate ct < 1/2 then
         ["Multiple network connectivity failures"] else []),
       (if ¬ successRate ct < 1/2 ∧ successRate ct < 4/5 then
         ["Some network connectivity issues"] else []),
       [], []⟩
    ∧ successRate ct = ((ct.length : ℚ) - failedCount ct) / ct.length
    ∧ ∀ (r : ScanResults) (h : CompositeHealth),
        r.network = some (.vdict nv) →
        calculate_comprehensive_system_health r = .ok h →
        compScore h.component_scores "network"
          = some ((pyTrunc (successRate ct * 100) : ℤ) : ℚ) := by
  have hbranch : networkBranch (.vdict nv) = .ok
      ⟨((pyTrunc (successRate ct * 100) : ℤ) : ℚ),
       (if successRate ct < 1/2 then
         ["Multiple network connectivity failures"] else []),
       (if ¬ successRate ct < 1/2 ∧ successRate ct < 4/5 then
         ["Some network connectivity issues"] else []),
       [], []⟩ := by
    rw [networkBranch]
    simp only [dictGet, pyGet, hct, Option.getD_some, Bind.bind, Except.bind]
    rw [if_pos (by simpa using List.length_pos.mpr hpos)]
  refine ⟨hbranch, rfl, ?_⟩
  intro r h hr hok
  obtain ⟨b, p, se, so, ne, st, sb, hb, hp, hse, hso, hne, hst, hsb,
    hscore, hstat, hri, hcomp⟩ := health_decompose hok
  rw [hr] at hne
  have hne' : networkBranch (.vdict nv) = .ok ne := hne
  have : ne = _ := Except.ok.inj (hne'.symm.trans hbranch)
  rw [hcomp, this]
  simp [compScore]

/-- Witness for the C4 amended theorem at a single-entry test map (the
`dns_resolution`-only shape): one test, zero failed, truncated score 100. -/
theorem network_score_formula_witness :
    networkBranch (.vdict [("connectivity_tests", .vdict dnsOnlyTests)]) = .ok
      ⟨((pyTrunc (successRate dnsOnlyTests * 100) : ℤ) : ℚ),
       (if successRate dnsOnlyTests < 1/2 then
         ["Multiple network connectivity failures"] else []),
       (if ¬ successRate dnsOnlyTests < 1/2 ∧ successRate dnsOnlyTests < 4/5 then
         ["Some network connectivity issues"] else []),
       [], []⟩
    ∧ compScore dnsOnlyComposite.component_scores "network"
        = some ((pyTrunc (successRate dnsOnlyTests * 100) : ℤ) : ℚ) :=
  let T := network_score_formula [("connectivity_tests", .vdict dnsOnlyTests)]
    dnsOnlyTests rfl (by simp [dnsOnlyTests])
  ⟨T.1, T.2.2 dnsOnlyScan dnsOnlyComposite rfl (by with_unfolding_all rfl)⟩

theorem cpuFailCount_dicts (l : List Dict) :
    cpuFailCount (l.map Value.vdict)
      = .ok (l.countP (fun td => !truthy (pyGet td "completed" (.vbool false)))) := by
  rw [cpuFailCount]
  suffices h : ∀ n : ℕ, ((l.map Value.vdict).foldlM (fun (n : ℕ) it => do
      let c ← dictGet it "completed" (.vbool false)
      Except.ok (if truthy c then n else n + 1)) n : Except String ℕ)
      = .ok (n + l.countP (fun td => !truthy (pyGet td "completed" (.vbool false)))) by
    simpa using h 0
  induction l with
  | nil => intro n; rfl
  | cons td rest ih =>
    intro n
    rw [List.map_cons, List.foldlM_cons]
    have hstep : ((do
        let c ← dictGet (Value.vdict td) "completed" (Value.vbool false)
        Except.ok (if truthy c then n else n + 1)) : Except String ℕ)
        = Except.ok (if truthy (pyGet td "completed" (Value.vbool false)) then n
            else n + 1) := rfl
    rw [hstep]
    simp only [Bind.bind, Except.bind] at ih ⊢
    rw [ih]
    by_cases hp : truthy (pyGet td "completed" (Value.vbool false))
    · simp [List.countP_cons, hp]
    · simp [List.countP_cons, hp]
      omega

theorem ioFailCount_dicts (l : List Dict) :
    ioFailCount (l.map Value.vdict)
      = .ok (l.countP (fun td => !vIsStr (pyGet td "status" .vnone) "Completed")) := by
  rw [ioFailCount]
  suffices h : ∀ n : ℕ, ((l.map Value.vdict).foldlM (fun (n : ℕ) it => do
      let s ← dictGet it "status" .vnone
      Except.ok (if vIsStr s "Completed" then n else n + 1)) n : Except String ℕ)
      = .ok (n + l.countP (fun td => !vIsStr (pyGet td "status" .vnone) "Completed")) by
    simpa using h 0
  induction l with
  | nil => intro n; rfl
  | cons td rest ih =>
    intro n
    rw [List.map_cons, List.foldlM_cons]
    have hstep : ((do
        let s ← dictGet (Value.vdict td) "status" Value.vnone
        Except.ok (if vIsStr s "Completed" then n else n + 1)) : Except String ℕ)
        = Except.ok (if vIsStr (pyGet td "status" Value.vnone) "Completed" then n
            else n + 1) := rfl
    rw [hstep]
    simp only [Bind.bind, Except.bind] at ih ⊢
    rw [ih]
    by_cases hp : vIsStr (pyGet td "status" Value.vnone) "Completed"
    · simp [List.countP_cons, hp]
    · simp [List.countP_cons, hp]
      omega

/-- C6: for every stress-test result (lists of test dicts and a memory-test
dict), the stability score is 100 minus 15 per failed CPU stress step, minus
10 per failed I/O step, minus 20 when the memory test's stability is not the
string `"Stable"`, floored at 0, with the matching warning strings; in
particular, two CPU tests with exactly one failure (and a stable memory
test, no I/O failures) give score 85 and the single warning
`"1 CPU stress test failures"`. -/
theorem stress_stability_score (cpu io : List Dict) (mem : Dict) :
    stressBranch (.vdict
      [("cpu_stress_tests", .vlist (cpu.map Value.vdict)),
       ("io_stress_tests", .vlist (io.map Value.vdict)),
       ("memory_stress_test", .vdict mem)])
    = .ok
      ⟨max 0 (100
          - 15 * (cpu.countP (fun td => !truthy (pyGet td "completed" (.vbool false))) : ℚ)
          - 10 * (io.countP (fun td => !vIsStr (pyGet td "status" .vnone) "Completed") : ℚ)
          - (if vIsStr (pyGet mem "stability" .vnone) "Stable" then 0 else 20)),
       [],
       (if 0 < cpu.countP (fun td => !truthy (pyGet td "completed" (.vbool false))) then
          [toString (cpu.countP (fun td => !truthy (pyGet td "completed" (.vbool false))))
            ++ " CPU stress test failures"] else [])
         ++ (if 0 < io.countP (fun td => !vIsStr (pyGet td "status" .vnone) "Completed") then
          [toString (io.countP (fun td => !vIsStr (pyGet td "status" .vnone) "Completed"))
            ++ " I/O performance issues"] else [])
         ++ (if vIsStr (pyGet mem "stability" .vnone) "Stable" then []
            else ["Memory stability concerns detected"]),
       [], []⟩
    ∧ stressBranch (.vdict
      [("cpu_stress_tests", .vlist
          [.vdict [("completed", .vbool true)], .vdict [("completed", .vbool false)]]),
       ("io_stress_tests", .vlist []),
       ("memory_stress_test", .vdict [("stability", .str "Stable")])])
      = .ok ⟨85, [], ["1 CPU stress test failures"], [], []⟩ := by
  constructor
  · rw [stressBranch]
    simp [dictGet, pyGet, dlookup, List.find?, pyIter, Bind.bind, Except.bind,
      cpuFailCount_dicts, ioFailCount_dicts]
  · with_unfolding_all rfl

/-- C10: the connectivity map returned by the probe always carries a final
`dns_resolution` entry that has no `status` field and therefore is never
counted as failed by the aggregator; consequently the map is never empty (so
the aggregator's pre-test default of 80 is never used for a completed
network probe), and a run in which all three pings produce no output yields
a network subsystem score of 100 with no issues or warnings. -/
theorem connectivity_dns_entry (ping : String → String) (dns : String) :
    (dlookup (perform_connectivity_tests ping dns) "dns_resolution"
        = some (.vdict (dnsEntry dns))
      ∧ dlookup (dnsEntry dns) "status" = none
      ∧ isFailedTest (.vdict (dnsEntry dns)) = false)
    ∧ 1 ≤ (perform_connectivity_tests ping dns).length
    ∧ perform_connectivity_tests ping dns ≠ []
    ∧ ((∀ h : String, ping h = "") →
        networkBranch (.vdict [("connectivity_tests",
          .vdict (perform_connectivity_tests ping dns))])
          = .ok ⟨100, [], [], [], []⟩) := by
  have hkeys : ∀ p ∈ (test_hosts.foldl (fun acc nh => acc ++ pingEntry ping nh)
      ([] : Dict)), p.1 ≠ "dns_resolution" := by
    intro p hp
    simp only [test_hosts, List.foldl_cons, List.foldl_nil, List.nil_append,
      List.mem_append] at hp
    rcases hp with (hp | hp) | hp <;>
      · rw [pingEntry] at hp
        split at hp <;> simp_all [pingKey] <;> decide
  refine ⟨⟨?_, ?_, ?_⟩, ?_, ?_, ?_⟩
  · rw [perform_connectivity_tests, dlookup_append_of_keys hkeys, dlookup_cons_self]
  · simp [dnsEntry, dlookup, List.find?]
  · simp [isFailedTest, vIsStr, pyGet, dnsEntry, dlookup, List.find?]
  · simp [perform_connectivity_tests]
  · simp [perform_connectivity_tests]
  · intro hp
    have hfold : test_hosts.foldl (fun acc nh => acc ++ pingEntry ping nh)
        ([] : Dict) = [] := by
      simp [test_hosts, pingEntry, hp]
    have hperform : perform_connectivity_tests ping dns
        = [("dns_resolution", .vdict (dnsEntry dns))] := by
      rw [perform_connectivity_tests, hfold]
      simp
    rw [hperform]
    have hrate : successRate [("dns_resolution", Value.vdict (dnsEntry dns))] = 1 := by
      rw [successRate]
      simp [failedCount, isFailedTest, pyGet, dlookup, List.find?, dnsEntry, vIsStr]
    rw [networkBranch]
    simp only [dictGet, pyGet, dlookup, List.find?, Bind.bind, Except.bind]
    norm_num [hrate, pyTrunc, ratFloor]

/-- Witness for C10 at pings that all return empty output and an empty
nslookup output. -/
theorem connectivity_dns_entry_witness :
    dlookup (perform_connectivity_tests (fun _ => "") "") "dns_resolution"
      = some (.vdict (dnsEntry ""))
    ∧ networkBranch (.vdict [("connectivity_tests",
        .vdict (perform_connectivity_tests (fun _ => "") ""))])
        = .ok ⟨100, [], [], [], []⟩ :=
  let T := connectivity_dns_entry (fun _ => "") ""
  ⟨T.1.1, T.2.2.2 (fun _ => rfl)⟩

/-- C2 (code bug): in the collection loop of `run_comprehensive_scan`, a
task that completes or raises before the 720 s deadline is recorded exactly
once (raisers as `{"error": ..., "partial_data": True}`), but a task still
pending when the deadline elapses makes `as_completed` raise
`concurrent.futures.TimeoutError` outside the per-task `try`, so the
pending task's name never appears in the results map and the scan aborts:
with six tasks finished (one of them by raising) and `stress_test` still
pending, the results map has six entries, none named `stress_test`, and the
timeout flag is raised — contradicting the claim that every registered name
appears exactly once for all task outcomes. -/
theorem scan_timeout_drops_pending_task :
    collectScanResults
      [("battery", .completed (.vdict [])), ("performance", .raised "boom"),
       ("hardware", .completed (.vdict [])), ("software", .completed (.vdict [])),
       ("security", .completed (.vdict [])), ("network", .completed (.vdict [])),
       ("stress_test", .pending)]
    = ([("battery", .vdict []), ("performance", errorRecord "boom"),
        ("hardware", .vdict []), ("software", .vdict []),
        ("security", .vdict []), ("network", .vdict [])], true)
    ∧ ((collectScanResults
      [("battery", .completed (.vdict [])), ("performance", .raised "boom"),
       ("hardware", .completed (.vdict [])), ("software", .completed (.vdict [])),
       ("security", .completed (.vdict [])), ("network", .completed (.vdict [])),
       ("stress_test", .pending)]).1.map Prod.fst).count "stress_test" = 0
    ∧ ((collectScanResults
      [("battery", .completed (.vdict [])), ("performance", .raised "boom"),
       ("hardware", .completed (.vdict [])), ("software", .completed (.vdict [])),
       ("security", .completed (.vdict [])), ("network", .completed (.vdict [])),
       ("stress_test", .pending)]).1.map Prod.fst).count "performance" = 1 :=
  ⟨rfl, by decide, by decide⟩

end Isvc
